import Mathlib

/-!
A shallow embedding of the Linear-webhook event reconciliation engine of
`src/pages/api/linear/webhook.ts` (`linearWebhookHandler`), together with the
Prisma data model (`synced_issues`, `syncs`, `users`, `milestones` tables).

The handler is modelled as a pure function from an environment of external
oracles (HTTP status codes, Linear reads, collaborator helpers that live
outside `src/`), a database snapshot and the webhook payload to a triple of
(outcome, ordered trace of outbound calls, final database).
-/

namespace SyncLinear

/-- A label as passed to the GitHub/Linear label helpers (name and color). -/
structure Label where
  name : String
  color : String
  deriving DecidableEq, Repr

/-- A row of the `synced_issues` table joined with its `GitHubRepo` relation
(the code always reads it via `include: ⟨GitHubRepo: true⟩`). -/
structure SyncedIssue where
  id : String
  githubIssueNumber : Nat
  linearIssueNumber : Nat
  githubIssueId : Nat
  linearIssueId : String
  linearTeamId : String
  githubRepoId : Nat
  repoName : String
  deriving DecidableEq, Repr

/-- A row of the `milestones` table. -/
structure MilestoneRec where
  milestoneId : Nat
  cycleId : String
  linearTeamId : String
  githubRepoId : Nat
  deriving DecidableEq, Repr

/-- A row of the `users` table (the Identity Mapping). -/
structure UserRec where
  linearUserId : String
  githubUsername : String
  deriving DecidableEq, Repr

/-- A row of the `syncs` table joined with its `LinearTeam` and `GitHubRepo`
relations, as fetched by `prisma.sync.findMany(... include ...)`. The two
`has…` flags model the nullability check `!sync?.LinearTeam || !sync?.GitHubRepo`. -/
structure SyncRec where
  linearUserId : String
  linearTeamId : String
  githubUserId : Nat
  hasLinearTeam : Bool
  publicLabelId : String
  doneStateId : String
  canceledStateId : String
  hasGitHubRepo : Bool
  repoName : String
  repoId : Nat
  deriving DecidableEq, Repr

/-- The Mapping Store state the handler reads and writes. -/
structure DB where
  syncedIssues : List SyncedIssue
  milestones : List MilestoneRec
  users : List UserRec
  deriving DecidableEq, Repr

/-- The cycle metadata returned by `getLinearCycle`. The comparison of the
cycle end timestamp against the current time is an external input, modelled
as the boolean `endsAtInFuture`. -/
structure Cycle where
  name : Option String
  number : Nat
  description : Option String
  endsAtInFuture : Bool
  deriving DecidableEq, Repr

/-- The `data` slice of the webhook payload (current field values).
Optional fields model properties that may be absent (`undefined`). -/
structure EventData where
  id : String
  userId : Option String
  creatorId : Option String
  teamId : Option String
  teamKey : Option String
  number : Nat
  title : String
  description : Option String
  labelIds : List String
  assigneeId : Option String
  priority : Nat
  estimate : Nat
  stateId : String
  cycleId : Option String
  body : Option String
  issueId : Option String
  userName : Option String
  deriving DecidableEq, Repr

/-- The `updatedFrom` slice of an update payload: the prior value of every
changed field. A `…Present` flag models the JavaScript `"field" in updatedFrom`
presence check; an `Option` field models a truthiness check on the prior value. -/
structure UpdatedFrom where
  labelIds : Option (List String)
  title : Option String
  description : Option String
  cycleIdPresent : Bool
  stateId : Option String
  assigneeIdPresent : Bool
  priorityPresent : Bool
  priority : Nat
  estimatePresent : Bool
  estimate : Nat
  deriving DecidableEq, Repr

/-- The webhook payload envelope destructured at the top of the handler. -/
structure Payload where
  action : String
  actionType : String
  data : EventData
  updatedFrom : UpdatedFrom
  url : String
  deriving DecidableEq, Repr

/-- One outbound call issued by the handler, in program order.
GitHub-side calls are the counterpart mutations/reads; `linear…` calls are
reads and best-effort writes against the source (Linear) system. -/
inductive Call where
  | linearGetIssue (issueId : String)
  | linearGetLabel (labelId : String)
  | linearGetCycle (cycleId : String)
  | linearGetComments (issueId : String)
  | linearCreateAttachment (issueId : String) (githubIssueNumber : Nat)
  | linearInviteMember (userId : Option String) (teamId : Option String)
  | createIssue (repo : String) (title : String) (body : String) (assignees : List String)
  | patchTitle (repo : String) (issueNumber : Nat) (title : String)
  | patchBody (repo : String) (issueNumber : Nat) (body : String)
  | patchState (repo : String) (issueNumber : Nat) (state : String) (stateReason : String)
  | deleteLabel (repo : String) (issueNumber : Nat) (labelName : String)
  | createLabel (repo : String) (label : Label)
  | applyLabels (repo : String) (issueNumber : Nat) (labelNames : List String)
  | getIssue (repo : String) (issueNumber : Nat)
  | addAssignees (repo : String) (issueNumber : Nat) (assignees : List String)
  | removeAssignees (repo : String) (issueNumber : Nat) (assignees : List String)
  | createComment (repo : String) (issueNumber : Nat) (body : String)
  | createMilestone (repo : String) (title : String) (state : String)
  | setIssueMilestone (repo : String) (issueNumber : Nat) (milestoneId : Option Nat)
  deriving DecidableEq, Repr

/-- Whether a call targets the counterpart (GitHub) system. -/
def Call.isGithub : Call → Bool
  | .linearGetIssue _ => false
  | .linearGetLabel _ => false
  | .linearGetCycle _ => false
  | .linearGetComments _ => false
  | .linearCreateAttachment _ _ => false
  | .linearInviteMember _ _ => false
  | _ => true

/-- Whether a call is a counterpart issue-creation call. -/
def Call.isCreateIssue : Call → Bool
  | .createIssue _ _ _ _ => true
  | _ => false

/-- Whether a call is a counterpart create-label call. -/
def Call.isCreateLabel : Call → Bool
  | .createLabel _ _ => true
  | _ => false

/-- External oracles: configuration constants that live outside `src/`
(`LINEAR.IP_ORIGINS`, `LINEAR.ALLOWED_LABELS`, `SHARED.PRIORITY_LABELS`,
`LINEAR.GERRIT_COMMENT_PREFIX`, `GITHUB.UUID_SUFFIX`, `getSyncFooter`),
HTTP responses, and the pure content-transformation collaborators
(`prepareMarkdownContent`, `replaceMentions`, `getGitHubFooter`) that the
spec treats as black boxes. -/
structure Env where
  ipOrigins : List String
  allowedLabels : List String
  priorityLabels : Nat → Option Label
  gerritMarker : String
  uuidSuffix : String
  syncFooter : String
  disableLinearMetadata : Bool
  syncStore : List SyncRec
  status : Call → Nat
  createLabelResult : Label → Option Label
  createLabelError : Label → Bool
  applyLabelError : List String → Bool
  createCommentError : String → Bool
  createMilestoneResult : Option Nat
  issueLabel : String → Option Label
  issueAssignees : List String
  createdIssueNumber : Nat
  createdIssueId : Nat
  cycle : String → Option Cycle
  hasInlineImg : String → Bool
  linearIssueDescription : String → Option String
  prepMd : Option String → Option String
  replaceMentions : String → String
  githubFooter : String → String
  resolvedGithubUsername : String → Option String
  linearComments : String → List (String × String)

/-- The result of one handler invocation: the returned outcome string
(`ok none` models the function running off its end), an `ApiError(msg, status)`,
or a plain thrown `Error`. -/
inductive Outcome where
  | ok : Option String → Outcome
  | fatalErr : String → Nat → Outcome
  | plainErr : String → Outcome
  deriving DecidableEq, Repr

/-- The result of one section of the handler body: continue to the next
statement, return a string, or throw an `ApiError(msg, status)`. -/
inductive StepRes where
  | cont : StepRes
  | done : String → StepRes
  | fatal : String → Nat → StepRes
  deriving DecidableEq, Repr

/-- A section result: step outcome, trace of outbound calls, updated store. -/
abbrev SectionRes := StepRes × List Call × DB

/-- Sequential composition of handler sections: a `return` or a thrown error
short-circuits, otherwise the next section runs on the updated store and the
call traces concatenate in program order. -/
def andThen (r : SectionRes) (k : DB → SectionRes) : SectionRes :=
  match r with
  | (.cont, t, db) =>
    let r2 := k db
    (r2.1, t ++ r2.2.1, r2.2.2)
  | r => r

/-- Per-event derived context: the fields destructured from the matched sync
record plus `ticketName` and the payload `url`. -/
structure Ctx where
  repoFullName : String
  repoId : Nat
  publicLabelId : String
  doneStateId : String
  canceledStateId : String
  linearTeamId : String
  ticketName : String
  url : String
  deriving DecidableEq, Repr

/-- JavaScript truthiness of an optional string (absent or empty is falsy). -/
def truthyStr : Option String → Bool
  | some s => s != ""
  | none => false

/-- Whether `p` is an initial segment of `l` (character-list level). -/
def listStartsWith : List Char → List Char → Bool
  | _, [] => true
  | [], _ :: _ => false
  | c :: cs, p :: ps => c == p && listStartsWith cs ps

/-- Whether `pat` occurs as a contiguous sublist of `l`. -/
def listContainsSub : List Char → List Char → Bool
  | [], pat => pat.isEmpty
  | c :: cs, pat => listStartsWith (c :: cs) pat || listContainsSub cs pat

/-- JavaScript `String.prototype.includes`. -/
def strContains (s pat : String) : Bool :=
  listContainsSub s.data pat.data

/-- JavaScript `String.prototype.startsWith`. -/
def strStartsWith (s pat : String) : Bool :=
  listStartsWith s.data pat.data

/-- JavaScript `String.prototype.toLowerCase` (ASCII case folding). -/
def strToLower (s : String) : String :=
  ⟨s.data.map Char.toLower⟩

/-- JavaScript `String.prototype.trim`: strip whitespace from both ends. -/
def strTrim (s : String) : String :=
  let ws := fun (c : Char) => c == ' ' || c == '\t' || c == '\n' || c == '\r'
  ⟨((s.data.dropWhile ws).reverse.dropWhile ws).reverse⟩

/-- Modelled from the spec: `isNumber` lives in `utils` which is not under
`src/`; per the spec a "numeric cycle name is prefixed" and a non-numeric
name is used verbatim, so this decides whether a string is a number. -/
def isNumber (s : String) : Bool :=
  s.data != [] && s.data.all (fun c => c.isDigit)

/-- Modelled from the spec: `skipReason` lives in `utils` which is not under
`src/`; it builds the human-readable skipped-event outcome string from the
skipped action kind, the ticket identifier, and whether the entity came from
GitHub. -/
def skipReason (action : String) (name : String) (isGithubEntity : Bool) : String :=
  "Skipping over " ++ action ++ " for " ++ name ++
    (if isGithubEntity then " as it is a GitHub entity." else ".")

/-- Modelled from the spec: `upsertUser` lives in `pages/api/utils` which is
not under `src/`. Per the spec ("Map the user's Linear username to their
GitHub username if not yet mapped"; an Identity Mapping is "created lazily by
the core the first time a counterpart identity must be resolved and is
missing") it inserts the actor's identity mapping into the store when absent
and performs no counterpart-issue mutation. -/
def upsertUser (env : Env) (db : DB) (_githubUserId : Nat) (linearUserId : String) : DB :=
  if db.users.any (fun u => u.linearUserId == linearUserId) then db
  else
    match env.resolvedGithubUsername linearUserId with
    | some g => { db with users := db.users ++ [⟨linearUserId, g⟩] }
    | none => db

/-- `prisma.syncedIssue.findFirst(⟨ linearIssueId: data.id, linearTeamId: data.teamId ⟩)`:
an absent (`undefined`) team id drops that filter, per Prisma semantics. -/
def findSyncedIssueOuter (db : DB) (issueId : String) (teamId : Option String) : Option SyncedIssue :=
  db.syncedIssues.find? (fun r =>
    r.linearIssueId == issueId &&
      (match teamId with
       | some t => r.linearTeamId == t
       | none => true))

/-- The comment-path lookup `prisma.syncedIssue.findFirst(⟨ linearIssueId: data.issueId ⟩)`:
it carries no team filter at all. -/
def findSyncedIssueByIssueId (db : DB) (issueId : Option String) : Option SyncedIssue :=
  db.syncedIssues.find? (fun r =>
    match issueId with
    | some iid => r.linearIssueId == iid
    | none => true)

/-- `⟦data.team?.key ?? ""⟧-⟦data.number⟧`. -/
def ticketNameOf (data : EventData) : String :=
  (data.teamKey.getD "") ++ "-" ++ toString data.number

/-- The issue title sent to GitHub: `[TICKET] title` unless metadata is disabled. -/
def buildTitle (env : Env) (ctx : Ctx) (data : EventData) : String :=
  if env.disableLinearMetadata then data.title
  else "[" ++ ctx.ticketName ++ "] " ++ data.title

/-- The issue body sent to GitHub: the prepared description plus the sync
footer and back-link, unless metadata is disabled. -/
def buildBody (env : Env) (ctx : Ctx) (modifiedDescription : Option String) : String :=
  if env.disableLinearMetadata then modifiedDescription.getD ""
  else
    modifiedDescription.getD "" ++ "\n\n<sub>" ++ env.syncFooter ++ " | [" ++
      ctx.ticketName ++ "](" ++ ctx.url ++ ")</sub>"

/-- The inline-image refetch: when the description matches the inline-image
regex the handler refetches the issue from Linear and prefers its description. -/
def resolveMarkdown (env : Env) (issueId : String) (desc : Option String) :
    List Call × Option String :=
  match desc with
  | none => ([], none)
  | some md =>
    if env.hasInlineImg md then
      ([Call.linearGetIssue issueId],
       match env.linearIssueDescription issueId with
       | some d => some d
       | none => some md)
    else ([], some md)

/-- `createdLabel ? createdLabel.name : label.name`. -/
def labelResultName (env : Env) (label : Label) : String :=
  match env.createLabelResult label with
  | some created => created.name
  | none => label.name

/-- One iteration of the label-replay loop during issue creation: resolve the
label on Linear, drop it if unresolved or not allow-listed, otherwise
create-or-find it on GitHub and collect its name; individual failures are
logged and skipped. -/
def replayLabelStep (env : Env) (repoFullName : String)
    (acc : List Call × List String) (lid : String) : List Call × List String :=
  match env.issueLabel lid with
  | none => (acc.1 ++ [Call.linearGetLabel lid], acc.2)
  | some label =>
    if !(env.allowedLabels.contains (strToLower label.name)) then
      (acc.1 ++ [Call.linearGetLabel lid], acc.2)
    else
      let cl := Call.createLabel repoFullName label
      if env.createLabelError label then
        (acc.1 ++ [Call.linearGetLabel lid, cl], acc.2)
      else
        (acc.1 ++ [Call.linearGetLabel lid, cl], acc.2 ++ [labelResultName env label])

/-- The "Add priority label if applicable" step of issue creation: when the
priority is nonzero and has an entry in the fixed table, create-or-find the
priority label; a failure is logged and the label simply not collected. -/
def priorityLabelAddition (env : Env) (repoFullName : String) (priority : Nat) :
    List Call × List String :=
  if priority != 0 then
    match env.priorityLabels priority with
    | some pl =>
      let cl := Call.createLabel repoFullName pl
      if env.createLabelError pl then ([cl], [])
      else ([cl], [labelResultName env pl])
    | none => ([], [])
  else ([], [])

/-- One iteration of the comment-replay loop during issue creation: skip
comments carrying the internal (Gerrit) marker, otherwise rewrite mentions,
append the attribution footer and post; failures are logged and skipped. -/
def commentReplayStep (env : Env) (repoFullName : String) (issueNumber : Nat)
    (acc : List Call) (c : String × String) : List Call :=
  if c.1 != "" && strStartsWith (strTrim c.1) env.gerritMarker then acc
  else
    acc ++ [Call.createComment repoFullName issueNumber
      (env.replaceMentions c.1 ++ env.githubFooter c.2)]

/-- The assignee list attached to a created issue: the ticket's assignee
translated through the Identity Mapping, or empty when absent or unmapped. -/
def resolveAssignees (db : DB) (data : EventData) : List String :=
  match data.assigneeId with
  | some aid =>
    match db.users.find? (fun u => u.linearUserId == aid) with
    | some u => [u.githubUsername]
    | none => []
  | none => []

/-- The issue-creation flow of the update path ("Public label added to an
issue", lines 296–531): prepare the markdown, resolve the assignee mapping,
create the counterpart issue (fatal on a status above 201, before any Issue
Link is written), then create the back-reference attachment and persist the
Issue Link, replay the labels through the allow-list plus the priority label,
apply them, and replay the comments. -/
def issueCreationUpdatePath (env : Env) (db : DB) (ctx : Ctx) (inviteNeeded : Bool)
    (data : EventData) : SectionRes :=
  let md := resolveMarkdown env data.id data.description
  let modifiedDescription := env.prepMd md.2
  let assignees := resolveAssignees db data
  let ci := Call.createIssue ctx.repoFullName (buildTitle env ctx data)
    (buildBody env ctx modifiedDescription) assignees
  let inviteCalls :=
    if inviteNeeded then [Call.linearInviteMember data.creatorId data.teamId] else []
  if env.status ci > 201 then
    (.fatal ("I was unable to create an issue on Github. Status code: " ++
      toString (env.status ci)) 500,
     md.1 ++ [ci] ++ inviteCalls, db)
  else
    let num := env.createdIssueNumber
    let db1 := { db with syncedIssues := db.syncedIssues ++
      [⟨"", num, data.number, env.createdIssueId, data.id, data.teamId.getD "",
        ctx.repoId, ctx.repoFullName⟩] }
    let replayIds := data.labelIds.filter (fun lid => lid != ctx.publicLabelId)
    let replayed := replayIds.foldl (replayLabelStep env ctx.repoFullName) ([], [])
    let prio := priorityLabelAddition env ctx.repoFullName data.priority
    let ap := Call.applyLabels ctx.repoFullName num (replayed.2 ++ prio.2)
    let commentCalls :=
      (env.linearComments data.id).foldl (commentReplayStep env ctx.repoFullName num) []
    (.cont,
     md.1 ++ [ci] ++ inviteCalls ++
       [Call.linearGetIssue data.id, Call.linearCreateAttachment data.id num] ++
       replayed.1 ++ prio.1 ++ [ap, Call.linearGetComments data.id] ++ commentCalls,
     db1)

/-- The label-update section of the update path (lines 187–532): label set
changed on an already-Public issue (removal: resolve and delete, or detach
when the Public label itself was removed; addition: allow-list check then
create-or-find and apply), or the Public label freshly added (issue creation,
short-circuited when an Issue Link already exists). -/
def labelUpdateSection (env : Env) (db : DB) (ctx : Ctx) (inviteNeeded : Bool)
    (data : EventData) (upd : UpdatedFrom) (siOpt : Option SyncedIssue) : SectionRes :=
  match upd.labelIds with
  | none => (.cont, [], db)
  | some oldIds =>
    if oldIds.contains ctx.publicLabelId then
      match siOpt with
      | none => (.done (skipReason "label" ctx.ticketName false), [], db)
      | some si =>
        if data.labelIds.length < oldIds.length then
          let removed := oldIds.find? (fun lid => !(data.labelIds.contains lid))
          if removed == some ctx.publicLabelId then
            (.done ("Deleted synced issue " ++ ctx.ticketName ++ " after Public label removed."),
             [], { db with syncedIssues := db.syncedIssues.filter (fun r => r.id != si.id) })
          else
            match removed with
            | none => (.fatal "Could not find label." 403, [], db)
            | some rid =>
              match env.issueLabel rid with
              | none => (.fatal "Could not find label." 403, [Call.linearGetLabel rid], db)
              | some label =>
                let dl := Call.deleteLabel si.repoName si.githubIssueNumber label.name
                if env.status dl > 201 then
                  (.fatal ("Could not remove label \"" ++ label.name ++ "\".") 403,
                   [Call.linearGetLabel rid, dl], db)
                else (.cont, [Call.linearGetLabel rid, dl], db)
        else if data.labelIds.length > oldIds.length then
          let added := data.labelIds.find? (fun lid => !(oldIds.contains lid))
          match added with
          | none => (.fatal "Could not find label." 403, [], db)
          | some aid =>
            match env.issueLabel aid with
            | none => (.fatal "Could not find label." 403, [Call.linearGetLabel aid], db)
            | some label =>
              if !(env.allowedLabels.contains (strToLower label.name)) then
                (.done ("Label is not in the allowed list: " ++ label.name),
                 [Call.linearGetLabel aid], db)
              else
                let cl := Call.createLabel ctx.repoFullName label
                if env.createLabelError label then
                  (.fatal "Could not create label." 403, [Call.linearGetLabel aid, cl], db)
                else
                  let labelName := labelResultName env label
                  let ap := Call.applyLabels si.repoName si.githubIssueNumber [labelName]
                  if env.applyLabelError [labelName] then
                    (.fatal "Could not apply label." 403,
                     [Call.linearGetLabel aid, cl, ap], db)
                  else (.cont, [Call.linearGetLabel aid, cl, ap], db)
        else (.cont, [], db)
    else
      if data.labelIds.contains ctx.publicLabelId then
        match siOpt with
        | some _ => (.done "Issue already exists on GitHub.", [], db)
        | none => issueCreationUpdatePath env db ctx inviteNeeded data
      else (.cont, [], db)

/-- The title-change section (lines 542–568): one PATCH of the rebuilt title;
a failed status is logged only. -/
def titleSection (env : Env) (db : DB) (ctx : Ctx) (data : EventData)
    (upd : UpdatedFrom) (actionType : String) (si : SyncedIssue) : SectionRes :=
  if truthyStr upd.title && actionType == "Issue" then
    (.cont, [Call.patchTitle si.repoName si.githubIssueNumber (buildTitle env ctx data)], db)
  else (.cont, [], db)

/-- The description-change section (lines 571–615): prepare the markdown and
PATCH the rebuilt body; a failed status is logged only. -/
def descriptionSection (env : Env) (db : DB) (ctx : Ctx) (data : EventData)
    (upd : UpdatedFrom) (actionType : String) (si : SyncedIssue) : SectionRes :=
  if truthyStr upd.description && actionType == "Issue" then
    let md := resolveMarkdown env data.id data.description
    let modifiedDescription := env.prepMd md.2
    (.cont,
     md.1 ++ [Call.patchBody si.repoName si.githubIssueNumber
       (buildBody env ctx modifiedDescription)], db)
  else (.cont, [], db)

/-- The cycle-change section (lines 618–720): on a cleared cycle remove the
milestone association and return; on a set cycle find-or-create the Milestone
Link (skipping the bot's own echoed cycles, deriving title and open/closed
state) and set the milestone, then return. Milestone-path failures are fatal
(status 500). -/
def cycleSection (env : Env) (db : DB) (ctx : Ctx) (data : EventData)
    (upd : UpdatedFrom) (actionType : String) (si : SyncedIssue) : SectionRes :=
  if upd.cycleIdPresent && actionType == "Issue" then
    match data.cycleId with
    | none =>
      let c := Call.setIssueMilestone si.repoName si.githubIssueNumber none
      if env.status c > 201 then
        (.fatal ("Could not remove milestone for " ++ ctx.ticketName ++ ".") 500, [c], db)
      else (.done ("Removed milestone for " ++ ctx.ticketName ++ "."), [c], db)
    | some cid =>
      match db.milestones.find? (fun m => m.cycleId == cid && m.linearTeamId == ctx.linearTeamId) with
      | some m =>
        let sm := Call.setIssueMilestone si.repoName si.githubIssueNumber (some m.milestoneId)
        if env.status sm > 201 then
          (.fatal ("Could not add milestone for " ++ ctx.ticketName ++ ".") 500, [sm], db)
        else
          (.done ("Added milestone to #" ++ toString si.githubIssueNumber ++ " for " ++
            ctx.ticketName ++ "."), [sm], db)
      | none =>
        let gcyc := Call.linearGetCycle cid
        match env.cycle cid with
        | none => (.fatal ("Could not find cycle for " ++ ctx.ticketName ++ ".") 500, [gcyc], db)
        | some cyc =>
          if strContains (cyc.description.getD "") env.syncFooter then
            (.done ("Skipping over cycle \"" ++ cyc.name.getD "" ++
              "\" because it is caused by sync"), [gcyc], db)
          else
            let title :=
              match cyc.name with
              | none => "v." ++ toString cyc.number
              | some nm =>
                if nm == "" then "v." ++ toString cyc.number
                else if isNumber nm then "v." ++ nm
                else nm
            let state := if cyc.endsAtInFuture then "open" else "closed"
            let cm := Call.createMilestone si.repoName title state
            match env.createMilestoneResult with
            | none =>
              (.fatal ("Could not create milestone for " ++ ctx.ticketName ++ ".") 500,
               [gcyc, cm], db)
            | some mid =>
              let db1 := { db with milestones := db.milestones ++
                [⟨mid, cid, ctx.linearTeamId, si.githubRepoId⟩] }
              let sm := Call.setIssueMilestone si.repoName si.githubIssueNumber (some mid)
              if env.status sm > 201 then
                (.fatal ("Could not add milestone for " ++ ctx.ticketName ++ ".") 500,
                 [gcyc, cm, sm], db1)
              else
                (.done ("Added milestone to #" ++ toString si.githubIssueNumber ++ " for " ++
                  ctx.ticketName ++ "."), [gcyc, cm, sm], db1)
  else (.cont, [], db)

/-- The state-change section (lines 723–755): map done/canceled to closed
(with a completed / not_planned reason) and every other state to open, then
PATCH; a failed status is logged only. -/
def stateSection (_env : Env) (db : DB) (ctx : Ctx) (data : EventData)
    (upd : UpdatedFrom) (si : SyncedIssue) : SectionRes :=
  if truthyStr upd.stateId then
    let state :=
      if data.stateId == ctx.doneStateId || data.stateId == ctx.canceledStateId
      then "closed" else "open"
    let reason := if ctx.doneStateId == data.stateId then "completed" else "not_planned"
    (.cont, [Call.patchState si.repoName si.githubIssueNumber state reason], db)
  else (.cont, [], db)

/-- The assignee-change section (lines 758–848): read the current counterpart
assignees, resolve the new assignee through the Identity Mapping (skip when
unmapped or already assigned), otherwise issue the add-assignee call followed
by the remove-assignees call; failed statuses are logged only. -/
def assigneeSection (env : Env) (db : DB) (_ctx : Ctx) (data : EventData)
    (upd : UpdatedFrom) (si : SyncedIssue) : SectionRes :=
  if upd.assigneeIdPresent then
    let gi := Call.getIssue si.repoName si.githubIssueNumber
    let prev := env.issueAssignees
    let newAssignee := data.assigneeId.bind
      (fun aid => db.users.find? (fun u => u.linearUserId == aid))
    if data.assigneeId.isSome && newAssignee.isNone then
      (.cont, [gi], db)
    else if (match newAssignee with
             | some u => prev.contains u.githubUsername
             | none => false) then
      (.cont, [gi], db)
    else
      let toAdd := match newAssignee with | some u => [u.githubUsername] | none => []
      (.cont, [gi, Call.addAssignees si.repoName si.githubIssueNumber toAdd,
        Call.removeAssignees si.repoName si.githubIssueNumber prev], db)
  else (.cont, [], db)

/-- The priority-change section (lines 850–922): fatal 403 when either the
old or the new priority has no entry in the fixed table; best-effort removal
of the old priority label; return when the new priority is the none sentinel;
otherwise create-or-find and apply the new priority label (fatal 403 on
failure) and return. -/
def prioritySection (env : Env) (db : DB) (ctx : Ctx) (data : EventData)
    (upd : UpdatedFrom) (si : SyncedIssue) : SectionRes :=
  if upd.priorityPresent then
    match env.priorityLabels data.priority, env.priorityLabels upd.priority with
    | some newLabel, some prevLabel =>
      let dl := Call.deleteLabel si.repoName si.githubIssueNumber prevLabel.name
      if data.priority == 0 then
        (.done ("Removed priority label \"" ++ prevLabel.name ++ "\" from issue #" ++
          toString si.githubIssueNumber ++ "."), [dl], db)
      else
        let cl := Call.createLabel ctx.repoFullName newLabel
        if env.createLabelError newLabel then
          (.fatal "Could not create label." 403, [dl, cl], db)
        else
          let labelName := labelResultName env newLabel
          let ap := Call.applyLabels si.repoName si.githubIssueNumber [labelName]
          if env.applyLabelError [labelName] then
            (.fatal "Could not apply label." 403, [dl, cl, ap], db)
          else
            (.done ("Applied priority label \"" ++ labelName ++ "\" to issue #" ++
              toString si.githubIssueNumber ++ "."), [dl, cl, ap], db)
    | _, _ =>
      (.fatal ("Could not find a priority label for " ++ toString upd.priority ++
        " or " ++ toString data.priority ++ ".") 403, [], db)
  else (.cont, [], db)

/-- The estimate-change section (lines 924–991): best-effort removal of the
old "N points" label; return when the new estimate is the none sentinel;
otherwise create-or-find and apply the new estimate label (fatal 403 on
failure). -/
def estimateSection (env : Env) (db : DB) (ctx : Ctx) (data : EventData)
    (upd : UpdatedFrom) (si : SyncedIssue) : SectionRes :=
  if upd.estimatePresent then
    let prevName := toString upd.estimate ++ " points"
    let dl := Call.deleteLabel si.repoName si.githubIssueNumber prevName
    if data.estimate == 0 then
      (.done ("Removed estimate label \"" ++ prevName ++ "\" from issue #" ++
        toString si.githubIssueNumber ++ "."), [dl], db)
    else
      let estimateLabel : Label := ⟨toString data.estimate ++ " points", "666"⟩
      let cl := Call.createLabel ctx.repoFullName estimateLabel
      if env.createLabelError estimateLabel then
        (.fatal "Could not create estimate label." 403, [dl, cl], db)
      else
        let labelName := labelResultName env estimateLabel
        let ap := Call.applyLabels si.repoName si.githubIssueNumber [labelName]
        if env.applyLabelError [labelName] then
          (.fatal "Could not apply label." 403, [dl, cl, ap], db)
        else (.cont, [dl, cl, ap], db)
  else (.cont, [], db)

/-- The full update dispatch (lines 186–991): label section first, then the
"ensure there is a synced issue to update" guard, then the field sections in
program order, each able to return or throw and thereby end the event. -/
def handleUpdate (env : Env) (db : DB) (ctx : Ctx) (inviteNeeded : Bool)
    (data : EventData) (upd : UpdatedFrom) (actionType : String)
    (siOpt : Option SyncedIssue) : SectionRes :=
  andThen (labelUpdateSection env db ctx inviteNeeded data upd siOpt) fun db1 =>
    match siOpt with
    | none => (.done (skipReason "edit" ctx.ticketName false), [], db1)
    | some si =>
      andThen (titleSection env db1 ctx data upd actionType si) fun db2 =>
      andThen (descriptionSection env db2 ctx data upd actionType si) fun db3 =>
      andThen (cycleSection env db3 ctx data upd actionType si) fun db4 =>
      andThen (stateSection env db4 ctx data upd si) fun db5 =>
      andThen (assigneeSection env db5 ctx data upd si) fun db6 =>
      andThen (prioritySection env db6 ctx data upd si) fun db7 =>
      estimateSection env db7 ctx data upd si

/-- The comment-created path (lines 993–1045): skip the bot's own echoed
comments (UUID-suffix marker) and internal-marker comments; look up the Issue
Link on the Linear issue id alone; skip when absent; otherwise rewrite
mentions, append the attribution footer and post (a failure is logged only). -/
def commentCreateSection (env : Env) (db : DB) (data : EventData) : SectionRes :=
  if strContains data.id env.uuidSuffix then
    (.done (skipReason "comment" (data.issueId.getD "") true), [], db)
  else if data.body.getD "" != "" && strStartsWith (strTrim (data.body.getD "")) env.gerritMarker then
    (.done ("Skipping syncing internal Gerrit comment for issue #" ++
      (data.issueId.getD "")), [], db)
  else
    match findSyncedIssueByIssueId db data.issueId with
    | none =>
      (.done (skipReason "comment" ((data.teamKey.getD "") ++ "-" ++ toString data.number)
        false), [], db)
    | some si =>
      let modifiedBody := env.replaceMentions (data.body.getD "")
      let footer := env.githubFooter (data.userName.getD "")
      (.cont,
       [Call.createComment si.repoName si.githubIssueNumber (modifiedBody ++ footer)], db)

/-- The issue-created path (lines 1046–1247): skip unless labeled public; skip
when an Issue Link already exists; skip the bot's own echoed issues; otherwise
create the counterpart issue (fatal on a status above 201, before any Issue
Link is written), create the attachment and persist the Issue Link, replay
labels plus the priority label, apply them, and invite the creator if needed. -/
def issueCreateSection (env : Env) (db : DB) (ctx : Ctx) (syncs : List SyncRec)
    (data : EventData) (siOpt : Option SyncedIssue) : SectionRes :=
  if !(data.labelIds.contains ctx.publicLabelId) then
    (.done "Issue is not labeled as public", [], db)
  else
    match siOpt with
    | some si =>
      (.done ("Not creating issue after label added as issue " ++ ctx.ticketName ++
        " already exists on GitHub as #" ++ toString si.githubIssueNumber ++ "."), [], db)
    | none =>
      if strContains data.id env.uuidSuffix then
        (.done (skipReason "issue" data.id true), [], db)
      else
        let md := resolveMarkdown env data.id data.description
        let modifiedDescription := env.prepMd md.2
        let assignees := resolveAssignees db data
        let ci := Call.createIssue ctx.repoFullName (buildTitle env ctx data)
          (buildBody env ctx modifiedDescription) assignees
        if env.status ci > 201 then
          (.fatal ("I was unable to create an issue on Github. Status code: " ++
            toString (env.status ci)) 500,
           md.1 ++ [ci], db)
        else
          let num := env.createdIssueNumber
          let db1 := { db with syncedIssues := db.syncedIssues ++
            [⟨"", num, data.number, env.createdIssueId, data.id, data.teamId.getD "",
              ctx.repoId, ctx.repoFullName⟩] }
          let replayIds := data.labelIds.filter (fun lid => lid != ctx.publicLabelId)
          let replayed := replayIds.foldl (replayLabelStep env ctx.repoFullName) ([], [])
          let prio := priorityLabelAddition env ctx.repoFullName data.priority
          let ap := Call.applyLabels ctx.repoFullName num (replayed.2 ++ prio.2)
          let inviteNeeded := !(match data.creatorId with
            | some cid => syncs.any (fun s => s.linearUserId == cid)
            | none => false)
          let inviteCalls :=
            if inviteNeeded then [Call.linearInviteMember data.creatorId data.teamId] else []
          (.cont,
           md.1 ++ [ci, Call.linearCreateAttachment data.id num] ++
             replayed.1 ++ prio.1 ++ [ap] ++ inviteCalls,
           db1)

/-- Converts a section result into a handler outcome: falling off the end of
the function returns `undefined`, a `return` yields its string, a thrown
`ApiError` surfaces with its status code. -/
def toOutcome : SectionRes → Outcome × List Call × DB
  | (.cont, t, db) => (.ok none, t, db)
  | (.done s, t, db) => (.ok (some s), t, db)
  | (.fatal m n, t, db) => (.fatalErr m n, t, db)

/-- `data.userId ?? data.creatorId`: the actor id of the event. -/
def uidOf (data : EventData) : Option String :=
  match data.userId with
  | some u => some u
  | none => data.creatorId

/-- The `prisma.sync.findMany(⟨ linearUserId: data.userId ?? data.creatorId ⟩)`
result: an absent (`undefined`) actor id drops the filter, per Prisma semantics. -/
def syncCandidates (env : Env) (data : EventData) : List SyncRec :=
  match uidOf data with
  | some u => env.syncStore.filter (fun s => s.linearUserId == u)
  | none => env.syncStore

/-- `syncs.find(...)`: the one Sync Link whose actor matches and whose team
scope matches when the event carries one (comment events carry none). -/
def resolveSync (env : Env) (data : EventData) : Option SyncRec :=
  (syncCandidates env data).find? (fun (s : SyncRec) =>
    (match uidOf data with | some u => s.linearUserId == u | none => false) &&
    (match data.teamId with | some t => s.linearTeamId == t | none => true))

/-- `linearWebhookHandler` (lines 86–1249): origin allow-list check, Sync Link
resolution (team scope narrows only when present), relation presence check,
identity-mapping upkeep, Issue Link lookup on (issue id, team id), then the
dispatch on (action kind, entity kind). -/
def linearWebhookHandler (env : Env) (db : DB) (payload : Payload) (originIp : String) :
    Outcome × List Call × DB :=
  if !(env.ipOrigins.contains originIp) then
    (.plainErr "Could not verify Linear webhook.", [], db)
  else
    let data := payload.data
    let syncs : List SyncRec := syncCandidates env data
    match resolveSync env data with
    | none => (.ok (some "Could not find Linear user in syncs."), [], db)
    | some sync =>
      if !(sync.hasLinearTeam && sync.hasGitHubRepo) then
        (.fatalErr "Could not find ticket's corresponding repo." 404, [], db)
      else
        let ctx : Ctx :=
          { repoFullName := sync.repoName, repoId := sync.repoId,
            publicLabelId := sync.publicLabelId, doneStateId := sync.doneStateId,
            canceledStateId := sync.canceledStateId, linearTeamId := sync.linearTeamId,
            ticketName := ticketNameOf data, url := payload.url }
        let db1 := upsertUser env db sync.githubUserId sync.linearUserId
        let siOpt := findSyncedIssueOuter db1 data.id data.teamId
        let inviteNeeded := !(match uidOf data with
          | some u => syncs.any (fun s => s.linearUserId == u)
          | none => false)
        if payload.action == "update" then
          toOutcome (handleUpdate env db1 ctx inviteNeeded data payload.updatedFrom
            payload.actionType siOpt)
        else if payload.action == "create" then
          if payload.actionType == "Comment" then
            toOutcome (commentCreateSection env db1 data)
          else if payload.actionType == "Issue" then
            toOutcome (issueCreateSection env db1 ctx syncs data siOpt)
          else (.ok none, [], db1)
        else (.ok none, [], db1)

/-! ### Concrete fixtures for witnesses and counterexamples -/

/-- A concrete Sync Link record. -/
def syncA : SyncRec :=
  { linearUserId := "lu-1", linearTeamId := "team-1", githubUserId := 501,
    hasLinearTeam := true, publicLabelId := "lbl-public",
    doneStateId := "state-done", canceledStateId := "state-cancel",
    hasGitHubRepo := true, repoName := "org/repo", repoId := 314 }

/-- A concrete environment with all-success responses. -/
def baseEnv : Env :=
  { ipOrigins := ["1.2.3.4"],
    allowedLabels := ["bug", "feature"],
    priorityLabels := fun n =>
      if n == 0 then some ⟨"No priority", "cccccc"⟩
      else if n == 1 then some ⟨"Priority: Urgent", "ff0000"⟩
      else if n == 2 then some ⟨"Priority: High", "ff6600"⟩
      else none,
    gerritMarker := "Gerrit change",
    uuidSuffix := "-github",
    syncFooter := "From SyncLinear.com",
    disableLinearMetadata := false,
    syncStore := [syncA],
    status := fun _ => 200,
    createLabelResult := fun _ => none,
    createLabelError := fun _ => false,
    applyLabelError := fun _ => false,
    createCommentError := fun _ => false,
    createMilestoneResult := some 77,
    issueLabel := fun lid =>
      if lid == "lbl-bug" then some ⟨"Bug", "d73a4a"⟩
      else if lid == "lbl-internal" then some ⟨"Internal", "aaaaaa"⟩
      else none,
    issueAssignees := ["gh-u1"],
    createdIssueNumber := 42,
    createdIssueId := 9001,
    cycle := fun _ => none,
    hasInlineImg := fun _ => false,
    linearIssueDescription := fun _ => none,
    prepMd := fun o => o,
    replaceMentions := fun s => s,
    githubFooter := fun u => " -- " ++ u,
    resolvedGithubUsername := fun _ => some "gh-actor",
    linearComments := fun _ => [] }

/-- A concrete derived context matching `syncA` and ticket `TST-7`. -/
def ctxA : Ctx :=
  { repoFullName := "org/repo", repoId := 314, publicLabelId := "lbl-public",
    doneStateId := "state-done", canceledStateId := "state-cancel",
    linearTeamId := "team-1", ticketName := "TST-7", url := "https://linear.app/t/TST-7" }

/-- A concrete Issue Link for ticket `TST-7` / GitHub issue 7. -/
def siA : SyncedIssue :=
  { id := "si-1", githubIssueNumber := 7, linearIssueNumber := 7, githubIssueId := 700,
    linearIssueId := "li-1", linearTeamId := "team-1", githubRepoId := 314,
    repoName := "org/repo" }

/-- A concrete store: one Issue Link, the actor's identity mapping present. -/
def dbA : DB :=
  { syncedIssues := [siA], milestones := [], users := [⟨"lu-1", "gh-actor"⟩] }

/-- A concrete update event on ticket `TST-7` with no changed fields yet. -/
def dataA : EventData :=
  { id := "li-1", userId := some "lu-1", creatorId := some "lu-1",
    teamId := some "team-1", teamKey := some "TST", number := 7,
    title := "Title", description := some "Desc",
    labelIds := ["lbl-public"], assigneeId := none, priority := 0, estimate := 0,
    stateId := "state-open", cycleId := none, body := none, issueId := none,
    userName := none }

/-- An empty delta. -/
def updNone : UpdatedFrom :=
  { labelIds := none, title := none, description := none, cycleIdPresent := false,
    stateId := none, assigneeIdPresent := false, priorityPresent := false,
    priority := 0, estimatePresent := false, estimate := 0 }

/-! ### C1: failure semantics of the label / priority / estimate / comment reconcilers -/

/-- Environment in which every GitHub delete-label call fails with 404 and
everything else succeeds. -/
def envC1 : Env :=
  { baseEnv with status := fun c =>
      match c with
      | Call.deleteLabel _ _ _ => 404
      | _ => 200 }

/-- Delta for C1: a label was removed (public label still present) and the
title also changed. -/
def updC1 : UpdatedFrom :=
  { updNone with labelIds := some ["lbl-public", "lbl-bug"], title := some "Old" }

/-- Update payload for C1. -/
def payC1 : Payload :=
  { action := "update", actionType := "Issue", data := dataA, updatedFrom := updC1,
    url := "u" }

/-- C1, counterexample: an update event whose delta contains both a label
removal and a title change, where the counterpart delete-label call returns
404 (above 201). Contrary to the claim, the failure is fatal: the handler
throws `ApiError(..., 403)` and the title reconciler never runs (no
`patchTitle` call appears in the trace), so the label-reconciler failure does
cancel the sibling reconcilers. -/
theorem c1_nonfatal_counterexample :
    linearWebhookHandler envC1 dbA payC1 "1.2.3.4" =
      (Outcome.fatalErr "Could not remove label \"Bug\"." 403,
       [Call.linearGetLabel "lbl-bug", Call.deleteLabel "org/repo" 7 "Bug"], dbA) ∧
    truthyStr payC1.updatedFrom.title = true ∧
    Call.patchTitle "org/repo" 7 "[TST-7] Title" ∉
      (linearWebhookHandler envC1 dbA payC1 "1.2.3.4").2.1 := by
  refine ⟨by decide, by decide, by decide⟩

/-- C1, amended: only the removal of the old label in the priority and
estimate reconcilers and the posting of a comment are non-fatal on failure
(processing continues); in the label reconciler a failed outbound call — and
in the priority and estimate reconcilers a failed create-or-apply of the new
label — raises a fatal 403 error that ends the event. The conjuncts, in
order: (1) priority old-label removal failure non-fatal; (2) estimate
old-label removal failure non-fatal; (3) comment-post failure non-fatal;
(4) label removal failure fatal 403; (5) label create failure fatal 403;
(6) label apply failure fatal 403; (7) priority create failure fatal 403;
(8) priority apply failure fatal 403; (9) estimate create failure fatal 403;
(10) estimate apply failure fatal 403. -/
theorem c1_failure_isolation_amended :
    (∀ (env : Env) (db : DB) (ctx : Ctx) (data : EventData) (upd : UpdatedFrom)
       (si : SyncedIssue) (newLabel prevLabel : Label),
       upd.priorityPresent = true →
       env.priorityLabels data.priority = some newLabel →
       env.priorityLabels upd.priority = some prevLabel →
       (data.priority == 0) = false →
       env.status (Call.deleteLabel si.repoName si.githubIssueNumber prevLabel.name) > 201 →
       env.createLabelError newLabel = false →
       env.applyLabelError [labelResultName env newLabel] = false →
       prioritySection env db ctx data upd si =
         (.done ("Applied priority label \"" ++ labelResultName env newLabel ++
            "\" to issue #" ++ toString si.githubIssueNumber ++ "."),
          [Call.deleteLabel si.repoName si.githubIssueNumber prevLabel.name,
           Call.createLabel ctx.repoFullName newLabel,
           Call.applyLabels si.repoName si.githubIssueNumber [labelResultName env newLabel]],
          db)) ∧
    (∀ (env : Env) (db : DB) (ctx : Ctx) (data : EventData) (upd : UpdatedFrom)
       (si : SyncedIssue),
       upd.estimatePresent = true →
       (data.estimate == 0) = false →
       env.status (Call.deleteLabel si.repoName si.githubIssueNumber
         (toString upd.estimate ++ " points")) > 201 →
       env.createLabelError ⟨toString data.estimate ++ " points", "666"⟩ = false →
       env.applyLabelError [labelResultName env ⟨toString data.estimate ++ " points", "666"⟩] = false →
       estimateSection env db ctx data upd si =
         (.cont,
          [Call.deleteLabel si.repoName si.githubIssueNumber (toString upd.estimate ++ " points"),
           Call.createLabel ctx.repoFullName ⟨toString data.estimate ++ " points", "666"⟩,
           Call.applyLabels si.repoName si.githubIssueNumber
             [labelResultName env ⟨toString data.estimate ++ " points", "666"⟩]],
          db)) ∧
    (∀ (env : Env) (db : DB) (data : EventData) (si : SyncedIssue),
       strContains data.id env.uuidSuffix = false →
       (data.body.getD "" != "" && strStartsWith (strTrim (data.body.getD "")) env.gerritMarker) = false →
       findSyncedIssueByIssueId db data.issueId = some si →
       env.createCommentError (env.replaceMentions (data.body.getD "") ++
         env.githubFooter (data.userName.getD "")) = true →
       commentCreateSection env db data =
         (.cont,
          [Call.createComment si.repoName si.githubIssueNumber
            (env.replaceMentions (data.body.getD "") ++ env.githubFooter (data.userName.getD ""))],
          db)) ∧
    (∀ (env : Env) (db : DB) (ctx : Ctx) (inviteNeeded : Bool) (data : EventData)
       (upd : UpdatedFrom) (si : SyncedIssue) (oldIds : List String) (rid : String)
       (label : Label),
       upd.labelIds = some oldIds →
       ctx.publicLabelId ∈ oldIds →
       data.labelIds.length < oldIds.length →
       oldIds.find? (fun lid => !(data.labelIds.contains lid)) = some rid →
       rid ≠ ctx.publicLabelId →
       env.issueLabel rid = some label →
       env.status (Call.deleteLabel si.repoName si.githubIssueNumber label.name) > 201 →
       labelUpdateSection env db ctx inviteNeeded data upd (some si) =
         (.fatal ("Could not remove label \"" ++ label.name ++ "\".") 403,
          [Call.linearGetLabel rid, Call.deleteLabel si.repoName si.githubIssueNumber label.name],
          db)) ∧
    (∀ (env : Env) (db : DB) (ctx : Ctx) (inviteNeeded : Bool) (data : EventData)
       (upd : UpdatedFrom) (si : SyncedIssue) (oldIds : List String) (aid : String)
       (lbl : Label),
       upd.labelIds = some oldIds →
       ctx.publicLabelId ∈ oldIds →
       oldIds.length < data.labelIds.length →
       data.labelIds.find? (fun lid => !(oldIds.contains lid)) = some aid →
       env.issueLabel aid = some lbl →
       strToLower lbl.name ∈ env.allowedLabels →
       env.createLabelError lbl = true →
       labelUpdateSection env db ctx inviteNeeded data upd (some si) =
         (.fatal "Could not create label." 403,
          [Call.linearGetLabel aid, Call.createLabel ctx.repoFullName lbl], db)) ∧
    (∀ (env : Env) (db : DB) (ctx : Ctx) (inviteNeeded : Bool) (data : EventData)
       (upd : UpdatedFrom) (si : SyncedIssue) (oldIds : List String) (aid : String)
       (lbl : Label),
       upd.labelIds = some oldIds →
       ctx.publicLabelId ∈ oldIds →
       oldIds.length < data.labelIds.length →
       data.labelIds.find? (fun lid => !(oldIds.contains lid)) = some aid →
       env.issueLabel aid = some lbl →
       strToLower lbl.name ∈ env.allowedLabels →
       env.createLabelError lbl = false →
       env.applyLabelError [labelResultName env lbl] = true →
       labelUpdateSection env db ctx inviteNeeded data upd (some si) =
         (.fatal "Could not apply label." 403,
          [Call.linearGetLabel aid, Call.createLabel ctx.repoFullName lbl,
           Call.applyLabels si.repoName si.githubIssueNumber [labelResultName env lbl]],
          db)) ∧
    (∀ (env : Env) (db : DB) (ctx : Ctx) (data : EventData) (upd : UpdatedFrom)
       (si : SyncedIssue) (newLabel prevLabel : Label),
       upd.priorityPresent = true →
       env.priorityLabels data.priority = some newLabel →
       env.priorityLabels upd.priority = some prevLabel →
       (data.priority == 0) = false →
       env.createLabelError newLabel = true →
       prioritySection env db ctx data upd si =
         (.fatal "Could not create label." 403,
          [Call.deleteLabel si.repoName si.githubIssueNumber prevLabel.name,
           Call.createLabel ctx.repoFullName newLabel], db)) ∧
    (∀ (env : Env) (db : DB) (ctx : Ctx) (data : EventData) (upd : UpdatedFrom)
       (si : SyncedIssue) (newLabel prevLabel : Label),
       upd.priorityPresent = true →
       env.priorityLabels data.priority = some newLabel →
       env.priorityLabels upd.priority = some prevLabel →
       (data.priority == 0) = false →
       env.createLabelError newLabel = false →
       env.applyLabelError [labelResultName env newLabel] = true →
       prioritySection env db ctx data upd si =
         (.fatal "Could not apply label." 403,
          [Call.deleteLabel si.repoName si.githubIssueNumber prevLabel.name,
           Call.createLabel ctx.repoFullName newLabel,
           Call.applyLabels si.repoName si.githubIssueNumber [labelResultName env newLabel]],
          db)) ∧
    (∀ (env : Env) (db : DB) (ctx : Ctx) (data : EventData) (upd : UpdatedFrom)
       (si : SyncedIssue),
       upd.estimatePresent = true →
       (data.estimate == 0) = false →
       env.createLabelError ⟨toString data.estimate ++ " points", "666"⟩ = true →
       estimateSection env db ctx data upd si =
         (.fatal "Could not create estimate label." 403,
          [Call.deleteLabel si.repoName si.githubIssueNumber (toString upd.estimate ++ " points"),
           Call.createLabel ctx.repoFullName ⟨toString data.estimate ++ " points", "666"⟩],
          db)) ∧
    (∀ (env : Env) (db : DB) (ctx : Ctx) (data : EventData) (upd : UpdatedFrom)
       (si : SyncedIssue),
       upd.estimatePresent = true →
       (data.estimate == 0) = false →
       env.createLabelError ⟨toString data.estimate ++ " points", "666"⟩ = false →
       env.applyLabelError [labelResultName env ⟨toString data.estimate ++ " points", "666"⟩] = true →
       estimateSection env db ctx data upd si =
         (.fatal "Could not apply label." 403,
          [Call.deleteLabel si.repoName si.githubIssueNumber (toString upd.estimate ++ " points"),
           Call.createLabel ctx.repoFullName ⟨toString data.estimate ++ " points", "666"⟩,
           Call.applyLabels si.repoName si.githubIssueNumber
             [labelResultName env ⟨toString data.estimate ++ " points", "666"⟩]],
          db)) := by
  refine ⟨?_, ?_, ?_, ?_, ?_, ?_, ?_, ?_, ?_, ?_⟩
  · intro env db ctx data upd si newLabel prevLabel hp hn ho h0 _hrem hcl hap
    simp [prioritySection, hp, hn, ho, h0, hcl, hap]
  · intro env db ctx data upd si he h0 _hrem hcl hap
    simp [estimateSection, he, h0, hcl, hap]
  · intro env db data si hu hg hfind _herr
    simp [commentCreateSection, hu, hg, hfind]
  · intro env db ctx inviteNeeded data upd si oldIds rid label hl hc hlen hfind hne hlbl hst
    have hfind2 : List.find? (fun lid => !decide (lid ∈ data.labelIds)) oldIds = some rid := by
      simpa using hfind
    simp [labelUpdateSection, hl, hc, hlen, hfind2, hne, hlbl, hst]
  · intro env db ctx inviteNeeded data upd si oldIds aid lbl hl hc hgt hfind hlbl hallow hcl
    have hnlt : ¬(data.labelIds.length < oldIds.length) := by omega
    have hfind2 : data.labelIds.find? (fun lid => !decide (lid ∈ oldIds)) = some aid := by
      simpa using hfind
    simp [labelUpdateSection, hl, hc, hnlt, hgt, hfind2, hlbl, hallow, hcl]
  · intro env db ctx inviteNeeded data upd si oldIds aid lbl hl hc hgt hfind hlbl hallow hcl hap
    have hnlt : ¬(data.labelIds.length < oldIds.length) := by omega
    have hfind2 : data.labelIds.find? (fun lid => !decide (lid ∈ oldIds)) = some aid := by
      simpa using hfind
    simp [labelUpdateSection, hl, hc, hnlt, hgt, hfind2, hlbl, hallow, hcl, hap]
  · intro env db ctx data upd si newLabel prevLabel hp hn ho h0 hcl
    simp [prioritySection, hp, hn, ho, h0, hcl]
  · intro env db ctx data upd si newLabel prevLabel hp hn ho h0 hcl hap
    simp [prioritySection, hp, hn, ho, h0, hcl, hap]
  · intro env db ctx data upd si he h0 hcl
    simp [estimateSection, he, h0, hcl]
  · intro env db ctx data upd si he h0 hcl hap
    simp [estimateSection, he, h0, hcl, hap]

/-- Event data for the priority leg of the C1 witness. -/
def dataC1p : EventData := { dataA with priority := 1 }

/-- Delta for the priority leg of the C1 witness. -/
def updC1p : UpdatedFrom := { updNone with priorityPresent := true, priority := 2 }

/-- Event data for the estimate leg of the C1 witness. -/
def dataC1e : EventData := { dataA with estimate := 3 }

/-- Delta for the estimate leg of the C1 witness. -/
def updC1e : UpdatedFrom := { updNone with estimatePresent := true, estimate := 5 }

/-- Environment for the comment leg of the C1 witness: comment creation fails. -/
def envC1c : Env := { envC1 with createCommentError := fun _ => true }

/-- Event data for the comment leg of the C1 witness. -/
def dataC1c : EventData :=
  { dataA with
    id := "cm-1"
    body := some "hi"
    issueId := some "li-1"
    userName := some "Ann" }

/-- Environment for the create-failure legs of the C1 witness: every
create-or-find label call fails. -/
def envC1cr : Env := { baseEnv with createLabelError := fun _ => true }

/-- Environment for the apply-failure legs of the C1 witness: every
apply-labels call fails. -/
def envC1ap : Env := { baseEnv with applyLabelError := fun _ => true }

/-- Event data for the label-addition legs of the C1 witness: the allow-listed
label `Bug` was added to an already-public issue. -/
def dataC1a : EventData := { dataA with labelIds := ["lbl-public", "lbl-bug"] }

/-- Delta for the label-addition legs of the C1 witness. -/
def updC1a : UpdatedFrom := { updNone with labelIds := some ["lbl-public"] }

/-- Witness for `c1_failure_isolation_amended` at concrete inputs, one leg
per conjunct. -/
theorem c1_failure_isolation_witness :
    prioritySection envC1 dbA ctxA dataC1p updC1p siA =
      (.done "Applied priority label \"Priority: Urgent\" to issue #7.",
       [Call.deleteLabel "org/repo" 7 "Priority: High",
        Call.createLabel "org/repo" ⟨"Priority: Urgent", "ff0000"⟩,
        Call.applyLabels "org/repo" 7 ["Priority: Urgent"]],
       dbA) ∧
    estimateSection envC1 dbA ctxA dataC1e updC1e siA =
      (.cont,
       [Call.deleteLabel "org/repo" 7 "5 points",
        Call.createLabel "org/repo" ⟨"3 points", "666"⟩,
        Call.applyLabels "org/repo" 7 ["3 points"]],
       dbA) ∧
    commentCreateSection envC1c dbA dataC1c =
      (.cont, [Call.createComment "org/repo" 7 "hi -- Ann"], dbA) ∧
    labelUpdateSection envC1 dbA ctxA false dataA updC1 (some siA) =
      (.fatal "Could not remove label \"Bug\"." 403,
       [Call.linearGetLabel "lbl-bug", Call.deleteLabel "org/repo" 7 "Bug"],
       dbA) ∧
    labelUpdateSection envC1cr dbA ctxA false dataC1a updC1a (some siA) =
      (.fatal "Could not create label." 403,
       [Call.linearGetLabel "lbl-bug", Call.createLabel "org/repo" ⟨"Bug", "d73a4a"⟩],
       dbA) ∧
    labelUpdateSection envC1ap dbA ctxA false dataC1a updC1a (some siA) =
      (.fatal "Could not apply label." 403,
       [Call.linearGetLabel "lbl-bug", Call.createLabel "org/repo" ⟨"Bug", "d73a4a"⟩,
        Call.applyLabels "org/repo" 7 ["Bug"]],
       dbA) ∧
    prioritySection envC1cr dbA ctxA dataC1p updC1p siA =
      (.fatal "Could not create label." 403,
       [Call.deleteLabel "org/repo" 7 "Priority: High",
        Call.createLabel "org/repo" ⟨"Priority: Urgent", "ff0000"⟩],
       dbA) ∧
    prioritySection envC1ap dbA ctxA dataC1p updC1p siA =
      (.fatal "Could not apply label." 403,
       [Call.deleteLabel "org/repo" 7 "Priority: High",
        Call.createLabel "org/repo" ⟨"Priority: Urgent", "ff0000"⟩,
        Call.applyLabels "org/repo" 7 ["Priority: Urgent"]],
       dbA) ∧
    estimateSection envC1cr dbA ctxA dataC1e updC1e siA =
      (.fatal "Could not create estimate label." 403,
       [Call.deleteLabel "org/repo" 7 "5 points",
        Call.createLabel "org/repo" ⟨"3 points", "666"⟩],
       dbA) ∧
    estimateSection envC1ap dbA ctxA dataC1e updC1e siA =
      (.fatal "Could not apply label." 403,
       [Call.deleteLabel "org/repo" 7 "5 points",
        Call.createLabel "org/repo" ⟨"3 points", "666"⟩,
        Call.applyLabels "org/repo" 7 ["3 points"]],
       dbA) := by
  obtain ⟨p1, p2, p3, p4, p5, p6, p7, p8, p9, p10⟩ := c1_failure_isolation_amended
  refine ⟨?_, ?_, ?_, ?_, ?_, ?_, ?_, ?_, ?_, ?_⟩
  · exact p1 envC1 dbA ctxA dataC1p updC1p siA
      ⟨"Priority: Urgent", "ff0000"⟩ ⟨"Priority: High", "ff6600"⟩
      (by decide) (by decide) (by decide) (by decide) (by decide) (by decide) (by decide)
  · exact p2 envC1 dbA ctxA dataC1e updC1e siA
      (by decide) (by decide) (by decide) (by decide) (by decide)
  · exact p3 envC1c dbA dataC1c siA
      (by decide) (by decide) (by decide) (by decide)
  · exact p4 envC1 dbA ctxA false dataA updC1 siA
      ["lbl-public", "lbl-bug"] "lbl-bug" ⟨"Bug", "d73a4a"⟩
      (by decide) (by decide) (by decide) (by decide) (by decide) (by decide) (by decide)
  · exact p5 envC1cr dbA ctxA false dataC1a updC1a siA
      ["lbl-public"] "lbl-bug" ⟨"Bug", "d73a4a"⟩
      (by decide) (by decide) (by decide) (by decide) (by decide) (by decide) (by decide)
  · exact p6 envC1ap dbA ctxA false dataC1a updC1a siA
      ["lbl-public"] "lbl-bug" ⟨"Bug", "d73a4a"⟩
      (by decide) (by decide) (by decide) (by decide) (by decide) (by decide) (by decide)
      (by decide)
  · exact p7 envC1cr dbA ctxA dataC1p updC1p siA
      ⟨"Priority: Urgent", "ff0000"⟩ ⟨"Priority: High", "ff6600"⟩
      (by decide) (by decide) (by decide) (by decide) (by decide)
  · exact p8 envC1ap dbA ctxA dataC1p updC1p siA
      ⟨"Priority: Urgent", "ff0000"⟩ ⟨"Priority: High", "ff6600"⟩
      (by decide) (by decide) (by decide) (by decide) (by decide) (by decide)
  · exact p9 envC1cr dbA ctxA dataC1e updC1e siA
      (by decide) (by decide) (by decide)
  · exact p10 envC1ap dbA ctxA dataC1e updC1e siA
      (by decide) (by decide) (by decide) (by decide)

/-! ### C2: which field reconcilers run for one delta -/

/-- Delta for C2: the cycle was cleared and the lifecycle state also changed. -/
def updC2 : UpdatedFrom :=
  { updNone with cycleIdPresent := true, stateId := some "state-old" }

/-- Update payload for C2. -/
def payC2 : Payload :=
  { action := "update", actionType := "Issue", data := dataA, updatedFrom := updC2,
    url := "u" }

/-- C2, counterexample: an update event whose delta contains both the cycle
field (cleared) and the lifecycle-state field. The cycle reconciler completes
successfully and returns, so the state reconciler is never invoked — its
PATCH (which would have been `state = "open"`, `state_reason = "not_planned"`)
is absent from the trace, refuting "no reconciler's completion suppresses the
execution of a later one". -/
theorem c2_suppression_counterexample :
    linearWebhookHandler baseEnv dbA payC2 "1.2.3.4" =
      (Outcome.ok (some "Removed milestone for TST-7."),
       [Call.setIssueMilestone "org/repo" 7 none], dbA) ∧
    truthyStr payC2.updatedFrom.stateId = true ∧
    Call.patchState "org/repo" 7 "open" "not_planned" ∉
      (linearWebhookHandler baseEnv dbA payC2 "1.2.3.4").2.1 := by
  refine ⟨by decide, by decide, by decide⟩

/-- Congruence for `andThen`: the continuation only matters pointwise. -/
theorem andThen_congr (r : SectionRes) (k k2 : DB → SectionRes)
    (h : ∀ db, k db = k2 db) : andThen r k = andThen r k2 := by
  rcases r with ⟨s, t, db⟩
  cases s <;> simp [andThen, h]

/-- A section that returns or throws short-circuits the rest of the chain. -/
theorem andThen_stop (r : SectionRes) (k : DB → SectionRes)
    (h : r.1 ≠ StepRes.cont) : andThen r k = r := by
  rcases r with ⟨s, t, db⟩
  cases s
  · exact absurd rfl h
  · rfl
  · rfl

/-- The cycle section never falls through: every one of its paths returns a
string or throws (webhook.ts lines 640, 661, 668, 691, 714, 718). -/
theorem cycleSection_ne_cont (env : Env) (db : DB) (ctx : Ctx) (data : EventData)
    (upd : UpdatedFrom) (si : SyncedIssue) (hcy : upd.cycleIdPresent = true) :
    (cycleSection env db ctx data upd "Issue" si).1 ≠ StepRes.cont := by
  simp only [cycleSection, hcy]
  repeat' split
  all_goals simp_all

/-- The priority section never falls through when the priority field is in
the delta: every path returns a string or throws (webhook.ts lines 858, 889,
902, 918, 920). -/
theorem prioritySection_ne_cont (env : Env) (db : DB) (ctx : Ctx) (data : EventData)
    (upd : UpdatedFrom) (si : SyncedIssue) (hp : upd.priorityPresent = true) :
    (prioritySection env db ctx data upd si).1 ≠ StepRes.cont := by
  simp only [prioritySection, hp]
  repeat' split
  all_goals simp_all

/-- C2, amended: for an update on a ticket with an existing Issue Link, the
title, description, state and assignee reconcilers each run when their field
is in the delta and none of them suppresses a later one; but the cycle
reconciler, whenever it runs, ends the event (suppressing the state,
assignee, priority and estimate reconcilers), and the priority reconciler,
whenever it runs, ends the event — returning on success or on a `none` new
value and failing fatally otherwise — suppressing the estimate reconciler.
The conjuncts, in order: (1) with title, description, state and assignee all
in the delta (and no label/cycle/priority/estimate change), all four
reconcilers are invoked, in program order; (2) the cycle section never
continues; (3) hence the update chain ends at the cycle section, the state,
assignee, priority and estimate sections never executing; (4) the priority
section never continues; (5) hence the update chain ends at the priority
section, the estimate section never executing. -/
theorem c2_reconciler_dispatch_amended :
    (∀ (env : Env) (db : DB) (ctx : Ctx) (inviteNeeded : Bool) (data : EventData)
       (upd : UpdatedFrom) (si : SyncedIssue) (aid : String),
       upd.labelIds = none →
       truthyStr upd.title = true →
       truthyStr upd.description = true →
       upd.cycleIdPresent = false →
       truthyStr upd.stateId = true →
       upd.assigneeIdPresent = true →
       upd.priorityPresent = false →
       upd.estimatePresent = false →
       data.description = none →
       data.assigneeId = some aid →
       db.users.find? (fun u => u.linearUserId == aid) = none →
       handleUpdate env db ctx inviteNeeded data upd "Issue" (some si) =
         (.cont,
          [Call.patchTitle si.repoName si.githubIssueNumber (buildTitle env ctx data),
           Call.patchBody si.repoName si.githubIssueNumber (buildBody env ctx (env.prepMd none)),
           Call.patchState si.repoName si.githubIssueNumber
             (if data.stateId == ctx.doneStateId || data.stateId == ctx.canceledStateId
              then "closed" else "open")
             (if ctx.doneStateId == data.stateId then "completed" else "not_planned"),
           Call.getIssue si.repoName si.githubIssueNumber],
          db)) ∧
    (∀ (env : Env) (db : DB) (ctx : Ctx) (data : EventData) (upd : UpdatedFrom)
       (si : SyncedIssue),
       upd.cycleIdPresent = true →
       (cycleSection env db ctx data upd "Issue" si).1 ≠ StepRes.cont) ∧
    (∀ (env : Env) (db : DB) (ctx : Ctx) (inviteNeeded : Bool) (data : EventData)
       (upd : UpdatedFrom) (si : SyncedIssue),
       upd.cycleIdPresent = true →
       handleUpdate env db ctx inviteNeeded data upd "Issue" (some si) =
         (andThen (labelUpdateSection env db ctx inviteNeeded data upd (some si)) fun db1 =>
          andThen (titleSection env db1 ctx data upd "Issue" si) fun db2 =>
          andThen (descriptionSection env db2 ctx data upd "Issue" si) fun db3 =>
          cycleSection env db3 ctx data upd "Issue" si)) ∧
    (∀ (env : Env) (db : DB) (ctx : Ctx) (data : EventData) (upd : UpdatedFrom)
       (si : SyncedIssue),
       upd.priorityPresent = true →
       (prioritySection env db ctx data upd si).1 ≠ StepRes.cont) ∧
    (∀ (env : Env) (db : DB) (ctx : Ctx) (inviteNeeded : Bool) (data : EventData)
       (upd : UpdatedFrom) (si : SyncedIssue) (actionType : String),
       upd.priorityPresent = true →
       handleUpdate env db ctx inviteNeeded data upd actionType (some si) =
         (andThen (labelUpdateSection env db ctx inviteNeeded data upd (some si)) fun db1 =>
          andThen (titleSection env db1 ctx data upd actionType si) fun db2 =>
          andThen (descriptionSection env db2 ctx data upd actionType si) fun db3 =>
          andThen (cycleSection env db3 ctx data upd actionType si) fun db4 =>
          andThen (stateSection env db4 ctx data upd si) fun db5 =>
          andThen (assigneeSection env db5 ctx data upd si) fun db6 =>
          prioritySection env db6 ctx data upd si)) := by
  refine ⟨?_, ?_, ?_, ?_, ?_⟩
  · intro env db ctx inviteNeeded data upd si aid hl ht hd hcy hs ha hp he hdesc hass hnomap
    simp [handleUpdate, andThen, labelUpdateSection, titleSection, descriptionSection,
      cycleSection, stateSection, assigneeSection, prioritySection, estimateSection,
      resolveMarkdown, hl, ht, hd, hcy, hs, ha, hp, he, hdesc, hass, hnomap]
  · intro env db ctx data upd si hcy
    exact cycleSection_ne_cont env db ctx data upd si hcy
  · intro env db ctx inviteNeeded data upd si hcy
    show andThen (labelUpdateSection env db ctx inviteNeeded data upd (some si)) _ = _
    refine andThen_congr _ _ _ fun db1 => ?_
    show andThen (titleSection env db1 ctx data upd "Issue" si) _ = _
    refine andThen_congr _ _ _ fun db2 => ?_
    show andThen (descriptionSection env db2 ctx data upd "Issue" si) _ = _
    refine andThen_congr _ _ _ fun db3 => ?_
    exact andThen_stop _ _ (cycleSection_ne_cont env db3 ctx data upd si hcy)
  · intro env db ctx data upd si hp
    exact prioritySection_ne_cont env db ctx data upd si hp
  · intro env db ctx inviteNeeded data upd si actionType hp
    show andThen (labelUpdateSection env db ctx inviteNeeded data upd (some si)) _ = _
    refine andThen_congr _ _ _ fun db1 => ?_
    show andThen (titleSection env db1 ctx data upd actionType si) _ = _
    refine andThen_congr _ _ _ fun db2 => ?_
    show andThen (descriptionSection env db2 ctx data upd actionType si) _ = _
    refine andThen_congr _ _ _ fun db3 => ?_
    show andThen (cycleSection env db3 ctx data upd actionType si) _ = _
    refine andThen_congr _ _ _ fun db4 => ?_
    show andThen (stateSection env db4 ctx data upd si) _ = _
    refine andThen_congr _ _ _ fun db5 => ?_
    show andThen (assigneeSection env db5 ctx data upd si) _ = _
    refine andThen_congr _ _ _ fun db6 => ?_
    exact andThen_stop _ _ (prioritySection_ne_cont env db6 ctx data upd si hp)

/-- Event data for the C2 witness: state set to done, assignee unmapped. -/
def dataC2w : EventData :=
  { dataA with
    description := none
    assigneeId := some "lu-unmapped"
    stateId := "state-done" }

/-- Delta for the C2 witness: title, description, state and assignee changed. -/
def updC2w : UpdatedFrom :=
  { updNone with
    title := some "t0"
    description := some "d0"
    stateId := some "s0"
    assigneeIdPresent := true }

/-- Event data for the priority-suppression leg of the C2 witness. -/
def dataC2p : EventData := { dataA with priority := 1 }

/-- Delta for the priority-suppression leg of the C2 witness. -/
def updC2p : UpdatedFrom := { updNone with priorityPresent := true, priority := 2 }

/-- Witness for `c2_reconciler_dispatch_amended` at concrete inputs, one leg
per conjunct: the four-reconciler run, the cycle section ending the event and
truncating the chain (evaluated: the milestone removal is the whole event),
and the priority section ending the event and truncating the chain
(evaluated: the priority labels are the whole event, no estimate call). -/
theorem c2_reconciler_dispatch_witness :
    handleUpdate baseEnv dbA ctxA false dataC2w updC2w "Issue" (some siA) =
      (.cont,
       [Call.patchTitle "org/repo" 7 "[TST-7] Title",
        Call.patchBody "org/repo" 7
          "\n\n<sub>From SyncLinear.com | [TST-7](https://linear.app/t/TST-7)</sub>",
        Call.patchState "org/repo" 7 "closed" "completed",
        Call.getIssue "org/repo" 7],
       dbA) ∧
    (cycleSection baseEnv dbA ctxA dataA updC2 "Issue" siA).1 ≠ StepRes.cont ∧
    handleUpdate baseEnv dbA ctxA false dataA updC2 "Issue" (some siA) =
      (.done "Removed milestone for TST-7.",
       [Call.setIssueMilestone "org/repo" 7 none], dbA) ∧
    (prioritySection baseEnv dbA ctxA dataC2p updC2p siA).1 ≠ StepRes.cont ∧
    handleUpdate baseEnv dbA ctxA false dataC2p updC2p "Issue" (some siA) =
      (.done "Applied priority label \"Priority: Urgent\" to issue #7.",
       [Call.deleteLabel "org/repo" 7 "Priority: High",
        Call.createLabel "org/repo" ⟨"Priority: Urgent", "ff0000"⟩,
        Call.applyLabels "org/repo" 7 ["Priority: Urgent"]],
       dbA) := by
  obtain ⟨p1, p2, p3, p4, p5⟩ := c2_reconciler_dispatch_amended
  refine ⟨?_, ?_, ?_, ?_, ?_⟩
  · have h := p1 baseEnv dbA ctxA false dataC2w updC2w siA "lu-unmapped"
      (by decide) (by decide) (by decide) (by decide) (by decide) (by decide)
      (by decide) (by decide) (by decide) (by decide) (by decide)
    simpa using h
  · exact p2 baseEnv dbA ctxA dataA updC2 siA (by decide)
  · rw [p3 baseEnv dbA ctxA false dataA updC2 siA (by decide)]
    decide
  · exact p4 baseEnv dbA ctxA dataC2p updC2p siA (by decide)
  · rw [p5 baseEnv dbA ctxA false dataC2p updC2p siA "Issue" (by decide)]
    decide

/-! ### C3: idempotence of the "ticket made visible" event -/

/-- C3: replaying a "ticket made visible" event when the Issue Link is already
persisted performs zero outbound calls — in particular zero issue-creation
calls — and short-circuits with an "already exists" outcome, on both the
update-with-label-added path and the create-ticket path. -/
theorem c3_idempotent_replay :
    (∀ (env : Env) (db : DB) (data : EventData) (upd : UpdatedFrom) (url ip : String)
       (sync : SyncRec) (si : SyncedIssue) (oldIds : List String),
       ip ∈ env.ipOrigins →
       resolveSync env data = some sync →
       sync.hasLinearTeam = true →
       sync.hasGitHubRepo = true →
       findSyncedIssueOuter (upsertUser env db sync.githubUserId sync.linearUserId)
         data.id data.teamId = some si →
       upd.labelIds = some oldIds →
       sync.publicLabelId ∉ oldIds →
       sync.publicLabelId ∈ data.labelIds →
       linearWebhookHandler env db ⟨"update", "Issue", data, upd, url⟩ ip =
         (.ok (some "Issue already exists on GitHub."), [],
          upsertUser env db sync.githubUserId sync.linearUserId)) ∧
    (∀ (env : Env) (db : DB) (data : EventData) (upd : UpdatedFrom) (url ip : String)
       (sync : SyncRec) (si : SyncedIssue),
       ip ∈ env.ipOrigins →
       resolveSync env data = some sync →
       sync.hasLinearTeam = true →
       sync.hasGitHubRepo = true →
       findSyncedIssueOuter (upsertUser env db sync.githubUserId sync.linearUserId)
         data.id data.teamId = some si →
       sync.publicLabelId ∈ data.labelIds →
       linearWebhookHandler env db ⟨"create", "Issue", data, upd, url⟩ ip =
         (.ok (some ("Not creating issue after label added as issue " ++ ticketNameOf data ++
            " already exists on GitHub as #" ++ toString si.githubIssueNumber ++ ".")), [],
          upsertUser env db sync.githubUserId sync.linearUserId)) := by
  refine ⟨?_, ?_⟩
  · intro env db data upd url ip sync si oldIds hip hres hteam hrepo hsi hl hnotin hin
    simp [linearWebhookHandler, toOutcome, handleUpdate, andThen, labelUpdateSection,
      hip, hres, hteam, hrepo, hsi, hl, hnotin, hin]
  · intro env db data upd url ip sync si hip hres hteam hrepo hsi hin
    simp [linearWebhookHandler, toOutcome, issueCreateSection,
      hip, hres, hteam, hrepo, hsi, hin]

/-- Delta for the C3 witness (update path): the Public label was added. -/
def updC3 : UpdatedFrom := { updNone with labelIds := some ["lbl-x"] }

/-- Event data for the C3 witness: the ticket now carries the Public label. -/
def dataC3 : EventData := { dataA with labelIds := ["lbl-x", "lbl-public"] }

/-- Update payload for the C3 witness. -/
def payC3 : Payload :=
  { action := "update", actionType := "Issue", data := dataC3, updatedFrom := updC3,
    url := "u" }

/-- Create payload for the C3 witness. -/
def payC3b : Payload :=
  { action := "create", actionType := "Issue", data := dataC3, updatedFrom := updNone,
    url := "u" }

/-- Witness for `c3_idempotent_replay`: with the Issue Link for `TST-7`
persisted, the replayed visibility event produces an empty trace and an
"already exists" outcome on both paths. -/
theorem c3_idempotent_replay_witness :
    linearWebhookHandler baseEnv dbA payC3 "1.2.3.4" =
      (.ok (some "Issue already exists on GitHub."), [], dbA) ∧
    linearWebhookHandler baseEnv dbA payC3b "1.2.3.4" =
      (.ok (some "Not creating issue after label added as issue TST-7 already exists on GitHub as #7."),
       [], dbA) := by
  constructor
  · rw [show payC3 = ⟨"update", "Issue", dataC3, updC3, "u"⟩ from rfl]
    rw [c3_idempotent_replay.1 baseEnv dbA dataC3 updC3 "u" "1.2.3.4" syncA siA ["lbl-x"]
      (by decide) (by decide) (by decide) (by decide) (by decide) (by decide)
      (by decide) (by decide)]
    decide
  · rw [show payC3b = ⟨"create", "Issue", dataC3, updNone, "u"⟩ from rfl]
    rw [c3_idempotent_replay.2 baseEnv dbA dataC3 updNone "u" "1.2.3.4" syncA siA
      (by decide) (by decide) (by decide) (by decide) (by decide) (by decide)]
    decide

/-! ### C4: call order in the assignee reconciler -/

/-- Store for C4: the new assignee `lu-2` is mapped to `gh-u2`. -/
def dbC4 : DB := { dbA with users := [⟨"lu-1", "gh-actor"⟩, ⟨"lu-2", "gh-u2"⟩] }

/-- Delta for C4: the assignee field changed. -/
def updC4 : UpdatedFrom := { updNone with assigneeIdPresent := true }

/-- Event data for C4: the new assignee is `lu-2`. -/
def dataC4 : EventData := { dataA with assigneeId := some "lu-2" }

/-- Update payload for C4. -/
def payC4 : Payload :=
  { action := "update", actionType := "Issue", data := dataC4, updatedFrom := updC4,
    url := "u" }

/-- C4: evaluating the handler at an assignee-change event whose new assignee
resolves to a mapped, not-yet-assigned counterpart username. The source's own
comment (line 759) says "Remove all assignees before re-assigning to avoid
false re-assignment events", but the code issues the add-assignee POST
(line 797) before the remove-assignees DELETE (line 823): the trace shows
`addAssignees` strictly before `removeAssignees`, the reverse of the
documented remove-then-add order. -/
theorem c4_assignee_order_bug :
    linearWebhookHandler baseEnv dbC4 payC4 "1.2.3.4" =
      (.ok none,
       [Call.getIssue "org/repo" 7,
        Call.addAssignees "org/repo" 7 ["gh-u2"],
        Call.removeAssignees "org/repo" 7 ["gh-u1"]],
       dbC4) := by
  decide

/-! ### C5: events whose actor matches no Sync Link -/

/-- C5: when the origin is accepted but the Sync Link resolution finds no
match, the handler performs zero outbound calls, leaves the store untouched,
and returns the "no link found" outcome rather than raising an error. -/
theorem c5_no_sync_link (env : Env) (db : DB) (payload : Payload) (ip : String)
    (hip : ip ∈ env.ipOrigins)
    (hres : resolveSync env payload.data = none) :
    linearWebhookHandler env db payload ip =
      (.ok (some "Could not find Linear user in syncs."), [], db) := by
  simp [linearWebhookHandler, hip, hres]

/-- Event data for the C5 witness: an actor with no Sync Link. -/
def dataC5 : EventData := { dataA with userId := some "ghost", creatorId := some "ghost" }

/-- Update payload for the C5 witness. -/
def payC5 : Payload :=
  { action := "update", actionType := "Issue", data := dataC5, updatedFrom := updNone,
    url := "u" }

/-- Witness for `c5_no_sync_link` at concrete inputs. -/
theorem c5_no_sync_link_witness :
    linearWebhookHandler baseEnv dbA payC5 "1.2.3.4" =
      (.ok (some "Could not find Linear user in syncs."), [], dbA) :=
  c5_no_sync_link baseEnv dbA payC5 "1.2.3.4" (by decide) (by decide)

/-! ### C6: no Issue Link on a failed counterpart create -/

/-- C6: on both creation flows, a counterpart issue-create call returning a
status above 201 raises a fatal 500 error and writes nothing to the store
(in particular no Issue Link): the flow's final store equals its initial one
and its trace ends at the failed create call. -/
theorem c6_no_link_on_failed_create :
    (∀ (env : Env) (db : DB) (ctx : Ctx) (inviteNeeded : Bool) (data : EventData)
       (code : Nat),
       env.status (Call.createIssue ctx.repoFullName (buildTitle env ctx data)
         (buildBody env ctx (env.prepMd (resolveMarkdown env data.id data.description).2))
         (resolveAssignees db data)) = code →
       code > 201 →
       issueCreationUpdatePath env db ctx inviteNeeded data =
         (.fatal ("I was unable to create an issue on Github. Status code: " ++
            toString code) 500,
          (resolveMarkdown env data.id data.description).1 ++
            [Call.createIssue ctx.repoFullName (buildTitle env ctx data)
              (buildBody env ctx (env.prepMd (resolveMarkdown env data.id data.description).2))
              (resolveAssignees db data)] ++
            (if inviteNeeded then [Call.linearInviteMember data.creatorId data.teamId] else []),
          db)) ∧
    (∀ (env : Env) (db : DB) (ctx : Ctx) (syncs : List SyncRec) (data : EventData)
       (code : Nat),
       ctx.publicLabelId ∈ data.labelIds →
       strContains data.id env.uuidSuffix = false →
       env.status (Call.createIssue ctx.repoFullName (buildTitle env ctx data)
         (buildBody env ctx (env.prepMd (resolveMarkdown env data.id data.description).2))
         (resolveAssignees db data)) = code →
       code > 201 →
       issueCreateSection env db ctx syncs data none =
         (.fatal ("I was unable to create an issue on Github. Status code: " ++
            toString code) 500,
          (resolveMarkdown env data.id data.description).1 ++
            [Call.createIssue ctx.repoFullName (buildTitle env ctx data)
              (buildBody env ctx (env.prepMd (resolveMarkdown env data.id data.description).2))
              (resolveAssignees db data)],
          db)) := by
  refine ⟨?_, ?_⟩
  · intro env db ctx inviteNeeded data code hst hcode
    simp [issueCreationUpdatePath, hst, hcode]
  · intro env db ctx syncs data code hin huuid hst hcode
    simp [issueCreateSection, hin, huuid, hst, hcode]

/-- Environment for the C6 witness: issue creation returns 404. -/
def envC6 : Env :=
  { baseEnv with status := fun c =>
      match c with
      | Call.createIssue _ _ _ _ => 404
      | _ => 200 }

/-- Store for the C6 witness: no Issue Link yet. -/
def dbC6 : DB := { dbA with syncedIssues := [] }

/-- Witness for `c6_no_link_on_failed_create` at concrete inputs. -/
theorem c6_no_link_on_failed_create_witness :
    issueCreationUpdatePath envC6 dbC6 ctxA false dataC3 =
      (.fatal "I was unable to create an issue on Github. Status code: 404" 500,
       [Call.createIssue "org/repo" "[TST-7] Title"
          "Desc\n\n<sub>From SyncLinear.com | [TST-7](https://linear.app/t/TST-7)</sub>" []],
       dbC6) ∧
    issueCreateSection envC6 dbC6 ctxA [syncA] dataC3 none =
      (.fatal "I was unable to create an issue on Github. Status code: 404" 500,
       [Call.createIssue "org/repo" "[TST-7] Title"
          "Desc\n\n<sub>From SyncLinear.com | [TST-7](https://linear.app/t/TST-7)</sub>" []],
       dbC6) := by
  constructor
  · rw [c6_no_link_on_failed_create.1 envC6 dbC6 ctxA false dataC3 404
      (by decide) (by decide)]
    decide
  · rw [c6_no_link_on_failed_create.2 envC6 dbC6 ctxA [syncA] dataC3 404
      (by decide) (by decide) (by decide) (by decide)]
    decide

/-! ### C7: removing the visibility label is a detach, not a delete -/

/-- C7: when an update removes the Public label from a synced ticket, the
handler deletes exactly that Issue Link and returns, with an empty outbound
trace; milestone links, identity mappings and every other Issue Link are left
untouched. -/
theorem c7_detach_frame (env : Env) (db : DB) (data : EventData) (upd : UpdatedFrom)
    (actionType url ip : String) (sync : SyncRec) (si : SyncedIssue) (oldIds : List String)
    (hip : ip ∈ env.ipOrigins)
    (hres : resolveSync env data = some sync)
    (hteam : sync.hasLinearTeam = true)
    (hrepo : sync.hasGitHubRepo = true)
    (hmapped : db.users.any (fun u => u.linearUserId == sync.linearUserId) = true)
    (hsi : findSyncedIssueOuter db data.id data.teamId = some si)
    (hl : upd.labelIds = some oldIds)
    (hc : sync.publicLabelId ∈ oldIds)
    (hlen : data.labelIds.length < oldIds.length)
    (hfind : oldIds.find? (fun lid => !(data.labelIds.contains lid)) = some sync.publicLabelId) :
    linearWebhookHandler env db ⟨"update", actionType, data, upd, url⟩ ip =
      (.ok (some ("Deleted synced issue " ++ ticketNameOf data ++ " after Public label removed.")),
       [],
       { db with syncedIssues := db.syncedIssues.filter (fun r => r.id != si.id) }) := by
  have hfind2 : oldIds.find? (fun lid => !decide (lid ∈ data.labelIds)) = some sync.publicLabelId := by
    simpa using hfind
  simp [linearWebhookHandler, toOutcome, handleUpdate, andThen, labelUpdateSection,
    upsertUser, hip, hres, hteam, hrepo, hmapped, hsi, hl, hc, hlen, hfind2]

/-- Delta for the C7 witness: the label set previously held the Public label. -/
def updC7 : UpdatedFrom := { updNone with labelIds := some ["lbl-public", "lbl-bug"] }

/-- Event data for the C7 witness: the Public label is gone. -/
def dataC7 : EventData := { dataA with labelIds := ["lbl-bug"] }

/-- Update payload for the C7 witness. -/
def payC7 : Payload :=
  { action := "update", actionType := "Issue", data := dataC7, updatedFrom := updC7,
    url := "u" }

/-- Witness for `c7_detach_frame` at concrete inputs. -/
theorem c7_detach_frame_witness :
    linearWebhookHandler baseEnv dbA payC7 "1.2.3.4" =
      (.ok (some "Deleted synced issue TST-7 after Public label removed."),
       [], { syncedIssues := [], milestones := [], users := [⟨"lu-1", "gh-actor"⟩] }) := by
  rw [show payC7 = ⟨"update", "Issue", dataC7, updC7, "u"⟩ from rfl]
  rw [c7_detach_frame baseEnv dbA dataC7 updC7 "Issue" "u" "1.2.3.4" syncA siA
    ["lbl-public", "lbl-bug"] (by decide) (by decide) (by decide) (by decide)
    (by decide) (by decide) (by decide) (by decide) (by decide) (by decide)]
  decide

/-! ### C8: label-reconciler guards on an already-public issue -/

/-- C8: in the label reconciler on an already-public synced issue, a label
removal never issues a counterpart create-label call (whatever the outcome),
and a label addition whose resolved name is not on the allow-list (matched
case-insensitively) makes no counterpart call at all — its only call is the
Linear-side name resolution — and returns the "not in the allowed list"
outcome. -/
theorem c8_label_reconciler_guards :
    (∀ (env : Env) (db : DB) (ctx : Ctx) (inviteNeeded : Bool) (data : EventData)
       (upd : UpdatedFrom) (si : SyncedIssue) (oldIds : List String),
       upd.labelIds = some oldIds →
       ctx.publicLabelId ∈ oldIds →
       data.labelIds.length < oldIds.length →
       ∀ c ∈ (labelUpdateSection env db ctx inviteNeeded data upd (some si)).2.1,
         c.isCreateLabel = false) ∧
    (∀ (env : Env) (db : DB) (ctx : Ctx) (inviteNeeded : Bool) (data : EventData)
       (upd : UpdatedFrom) (si : SyncedIssue) (oldIds : List String) (aid : String)
       (lbl : Label),
       upd.labelIds = some oldIds →
       ctx.publicLabelId ∈ oldIds →
       oldIds.length < data.labelIds.length →
       data.labelIds.find? (fun lid => !(oldIds.contains lid)) = some aid →
       env.issueLabel aid = some lbl →
       strToLower lbl.name ∉ env.allowedLabels →
       labelUpdateSection env db ctx inviteNeeded data upd (some si) =
         (.done ("Label is not in the allowed list: " ++ lbl.name),
          [Call.linearGetLabel aid], db) ∧
       (Call.linearGetLabel aid).isGithub = false) := by
  refine ⟨?_, ?_⟩
  · intro env db ctx inviteNeeded data upd si oldIds hl hc hlen c hmem
    simp only [labelUpdateSection, hl] at hmem
    rw [if_pos (by simpa using hc), if_pos hlen] at hmem
    repeat' split at hmem
    all_goals simp_all [Call.isCreateLabel]
    all_goals rcases hmem with rfl | rfl <;> rfl
  · intro env db ctx inviteNeeded data upd si oldIds aid lbl hl hc hgt hfind hlbl hallow
    have hnlt : ¬(data.labelIds.length < oldIds.length) := by omega
    have hfind2 : data.labelIds.find? (fun lid => !decide (lid ∈ oldIds)) = some aid := by
      simpa using hfind
    constructor
    · simp [labelUpdateSection, hl, hc, hnlt, hgt, hfind2, hlbl, hallow]
    · rfl

/-- Delta for the C8 witness: label set on an already-public issue grew. -/
def updC8 : UpdatedFrom := { updNone with labelIds := some ["lbl-public"] }

/-- Event data for the C8 witness: the added label resolves to "Internal",
which is not on the allow-list. -/
def dataC8 : EventData := { dataA with labelIds := ["lbl-public", "lbl-internal"] }

/-- Witness for `c8_label_reconciler_guards` at concrete inputs. -/
theorem c8_label_reconciler_guards_witness :
    ((labelUpdateSection envC1 dbA ctxA false dataC7 updC7 (some siA)).2.1.all
      (fun c => !c.isCreateLabel)) = true ∧
    labelUpdateSection baseEnv dbA ctxA false dataC8 updC8 (some siA) =
      (.done "Label is not in the allowed list: Internal",
       [Call.linearGetLabel "lbl-internal"], dbA) := by
  constructor
  · rw [List.all_eq_true]
    intro c hmem
    have h := c8_label_reconciler_guards.1 envC1 dbA ctxA false dataC7 updC7 siA
      ["lbl-public", "lbl-bug"] (by decide) (by decide) (by decide) c hmem
    simp [h]
  · exact (c8_label_reconciler_guards.2 baseEnv dbA ctxA false dataC8 updC8 siA
      ["lbl-public"] "lbl-internal" ⟨"Internal", "aaaaaa"⟩
      (by decide) (by decide) (by decide) (by decide) (by decide) (by decide)).1

/-! ### C9: priority values outside the fixed lookup table -/

/-- C9: when the priority field is in the delta and either the prior or the
new priority value has no entry in the fixed priority-label table, the
priority reconciler throws `ApiError(..., 403)` before any counterpart call
(its trace is empty) — even when the other of the two values is valid. -/
theorem c9_priority_lookup_error (env : Env) (db : DB) (ctx : Ctx) (data : EventData)
    (upd : UpdatedFrom) (si : SyncedIssue)
    (hp : upd.priorityPresent = true)
    (h : env.priorityLabels data.priority = none ∨ env.priorityLabels upd.priority = none) :
    prioritySection env db ctx data upd si =
      (.fatal ("Could not find a priority label for " ++ toString upd.priority ++
         " or " ++ toString data.priority ++ ".") 403, [], db) := by
  rcases h with h | h
  · simp [prioritySection, hp, h]
  · cases hfst : env.priorityLabels data.priority with
    | none => simp [prioritySection, hp, hfst]
    | some nl => simp [prioritySection, hp, hfst, h]

/-- Delta for the C9 witness: prior priority 9 has no table entry. -/
def updC9 : UpdatedFrom := { updNone with priorityPresent := true, priority := 9 }

/-- Event data for the C9 witness: new priority 1 is valid. -/
def dataC9 : EventData := { dataA with priority := 1 }

/-- Witness for `c9_priority_lookup_error`: the new value is valid, the prior
one is not, and the reconciler still fails with 403 and an empty trace. -/
theorem c9_priority_lookup_error_witness :
    prioritySection baseEnv dbA ctxA dataC9 updC9 siA =
      (.fatal "Could not find a priority label for 9 or 1." 403, [], dbA) := by
  rw [c9_priority_lookup_error baseEnv dbA ctxA dataC9 updC9 siA (by decide)
    (Or.inr (by decide))]
  decide

/-! ### C10: team scope of the Issue Link lookups -/

/-- C10: the comment-create path resolves the Issue Link on the Linear issue
id alone (no team filter), whereas the ticket-update lookup requires both the
issue id and the team id to match. Consequently a comment uses an Issue Link
of any team: on a store holding one link whose team differs from `t`, the
comment lookup finds it and the comment is posted to its repo, while the
update lookup scoped to `t` finds nothing. -/
theorem c10_comment_lookup_scope (env : Env) (r : SyncedIssue) (t : String)
    (ms : List MilestoneRec) (us : List UserRec) (data : EventData)
    (hteam : r.linearTeamId ≠ t)
    (hiid : data.issueId = some r.linearIssueId)
    (huuid : strContains data.id env.uuidSuffix = false)
    (hbody : (data.body.getD "" != "" &&
      strStartsWith (strTrim (data.body.getD "")) env.gerritMarker) = false) :
    findSyncedIssueByIssueId ⟨[r], ms, us⟩ data.issueId = some r ∧
    findSyncedIssueOuter ⟨[r], ms, us⟩ r.linearIssueId (some t) = none ∧
    commentCreateSection env ⟨[r], ms, us⟩ data =
      (.cont,
       [Call.createComment r.repoName r.githubIssueNumber
         (env.replaceMentions (data.body.getD "") ++ env.githubFooter (data.userName.getD ""))],
       ⟨[r], ms, us⟩) := by
  refine ⟨?_, ?_, ?_⟩
  · simp [findSyncedIssueByIssueId, hiid]
  · simp [findSyncedIssueOuter, hteam]
  · simp [commentCreateSection, findSyncedIssueByIssueId, huuid, hbody, hiid]

/-- Event data for the C10 witness: a comment on issue `li-1` (no team id on
comment events). -/
def dataC10 : EventData :=
  { dataA with
    id := "cm-9"
    teamId := none
    body := some "hello"
    issueId := some "li-1"
    userName := some "Ann" }

/-- Witness for `c10_comment_lookup_scope`: the stored link belongs to
`team-1`, the probe scope is `team-X`. -/
theorem c10_comment_lookup_scope_witness :
    findSyncedIssueByIssueId dbA dataC10.issueId = some siA ∧
    findSyncedIssueOuter dbA "li-1" (some "team-X") = none ∧
    commentCreateSection baseEnv dbA dataC10 =
      (.cont, [Call.createComment "org/repo" 7 "hello -- Ann"], dbA) := by
  have h := c10_comment_lookup_scope baseEnv siA "team-X" [] [⟨"lu-1", "gh-actor"⟩]
    dataC10 (by decide) (by decide) (by decide) (by decide)
  refine ⟨?_, ?_, ?_⟩
  · exact h.1
  · exact h.2.1
  · have h3 := h.2.2
    simpa using h3

end SyncLinear
